import Mathlib

/-!
Verification of the render-docs DoxygenRunner component.

The definitions below are a shallow embedding of the JavaScript sources:
the DoxygenRunner class (checkInstallation, prepare, extractValidationMessages,
checkXMLOutput, run) and the filesystem helpers cleanDirectory /
createDirectories from src/index.js.  Text is modelled as List Char,
the filesystem state of the XML output folder as an Option (List FsEntry)
(none when the folder does not exist), and the process-level control flow
(console output, process.exit, uncaught exceptions) as explicit data.
-/

set_option maxRecDepth 4096

/-- Text of the line-wrapped-continuation marker: the literal three-character
substring newline, space, space that the source replaces globally
(the regex in extractValidationMessages). -/
def nlTwoSpaces : List Char := ['\n', ' ', ' ']

/-- Models the JavaScript global replacement of the pattern newline-space-space
by a single space: the string is scanned left to right and every
non-overlapping occurrence of the three-character substring is replaced by
one space.  This is the normalization step of extractValidationMessages. -/
def meldContinuations : List Char → List Char
  | c1 :: c2 :: c3 :: rest =>
    if c1 == '\n' && c2 == ' ' && c3 == ' ' then
      ' ' :: meldContinuations rest
    else
      c1 :: meldContinuations (c2 :: c3 :: rest)
  | [c1, c2] => [c1, c2]
  | [c1] => [c1]
  | [] => []

/-- True when the text contains the three-character substring
newline-space-space somewhere. -/
def containsNl2 : List Char → Bool
  | c1 :: c2 :: c3 :: rest =>
    (c1 == '\n' && c2 == ' ' && c3 == ' ') || containsNl2 (c2 :: c3 :: rest)
  | _ => false

/-- Models the JavaScript split on the newline character: splitting never
drops separators, so an empty string yields one empty line and a trailing
newline yields a trailing empty line. -/
def splitLines : List Char → List (List Char)
  | [] => [[]]
  | c :: rest =>
    if c == '\n' then [] :: splitLines rest
    else
      match splitLines rest with
      | [] => [[c]]
      | line :: more => (c :: line) :: more

/-- The literal middle part of the warning-line regular expression. -/
def warningLit : List Char := ": warning: ".toList

/-- Models the test of the anchored regular expression
non-colon-non-newline-chars, colon, digits, colon-space-warning-colon-space,
one-or-more any chars, against a whole line: the first character class can
never cross a colon, and the digit run can never cross a non-digit, so the
backtracking regex is equivalent to this deterministic scan. -/
def isWarningLine (message : List Char) : Bool :=
  let notColonNl : Char → Bool := fun c => !(c == ':') && !(c == '\n')
  let seg1 := message.takeWhile notColonNl
  let rest1 := message.dropWhile notColonNl
  match rest1 with
  | ':' :: rest2 =>
    let digits := rest2.takeWhile Char.isDigit
    let rest3 := rest2.dropWhile Char.isDigit
    !seg1.isEmpty && !digits.isEmpty && warningLit.isPrefixOf rest3 &&
      !((rest3.drop warningLit.length).isEmpty) &&
      (rest3.drop warningLit.length).all (fun c => !(c == '\n'))
  | _ => false

/-- The caller-supplied options record of the DoxygenRunner constructor.
The exclude option is optional on the JavaScript side (undefined when the
CLI flag is absent), hence the Option type; accessLevel is a plain string
compared against the literal private. -/
structure RunOptions where
  sourceFolder : String
  doxygenVersion : String
  outputXML : Bool
  xmlFolder : String
  fileExtensions : List String
  exclude : Option String
  accessLevel : String
  debug : Bool
  doxygenConfigFile : String

/-- The directive set handed to doxygen.createConfig, one field per key of
the doxyFileOptions object literal in DoxygenRunner.prepare. -/
structure DoxyConfig where
  INPUT : String
  RECURSIVE : String
  GENERATE_HTML : String
  GENERATE_LATEX : String
  GENERATE_XML : String
  XML_OUTPUT : String
  CASE_SENSE_NAMES : String
  FILE_PATTERNS : String
  EXCLUDE_PATTERNS : String
  EXTRACT_PRIVATE : String
  EXTRACT_STATIC : String
  QUIET : String
  WARN_NO_PARAMDOC : String
  WARN_AS_ERROR : String
  ENABLE_PREPROCESSING : String

/-- A filesystem entry inside a directory: a plain file or a subdirectory
with its own entries. -/
inductive FsEntry where
  | file (name : String)
  | dir (name : String) (entries : List FsEntry)

/-- Models the loop body of cleanDirectory (src/index.js) over a directory
listing: a file child is removed via unlinkSync; a directory child is first
recursively cleaned (emptied) and then removed via rmdirSync, so either way
the child does not survive the iteration. -/
def cleanDirEntries : List FsEntry → List FsEntry
  | [] => []
  | FsEntry.file _ :: rest => cleanDirEntries rest
  | FsEntry.dir _ _ :: rest => cleanDirEntries rest

/-- Models cleanDirectory (src/index.js) on the state of one directory:
a no-op when the directory does not exist (existsSync is false), otherwise
all its entries are deleted while the directory itself is kept. -/
def cleanDirectory : Option (List FsEntry) → Option (List FsEntry)
  | none => none
  | some entries => some (cleanDirEntries entries)

/-- Models createDirectories (src/index.js) restricted to one directory:
mkdirSync creates it empty when it is missing, and an existing directory is
left as it is. -/
def createDirectoryIfMissing : Option (List FsEntry) → Option (List FsEntry)
  | none => some []
  | some entries => some entries

/-- The observable side-effect steps of a run, in the order the source
performs them. -/
inductive Event where
  | installCheck
  | downloadAttempt
  | configWrite
  | xmlDirClean
  | xmlDirCreate
  | doxygenExec
  | xmlDirList
deriving DecidableEq

/-- The data doxygen.run can throw: the message of the Error object and the
captured stderr of the doxygen process. -/
structure DoxygenFailure where
  message : List Char
  stderr : List Char

/-- The outside world as the run observes it: whether the requested doxygen
version is already installed, whether a download would succeed, how the
doxygen execution ends, and the listing of the XML folder taken after the
execution. -/
structure Environment where
  doxygenInstalled : Bool
  downloadOk : Bool
  doxygenFailure : Option DoxygenFailure
  xmlEntries : List String

/-- How a whole run ends: a process.exit call with a code, an uncaught
exception crash, or a normal return of the validation messages. -/
inductive RunOutcome where
  | exited (code : Nat)
  | crashed
  | finished (messages : List (List Char))
deriving DecidableEq

/-- The marker substring that DoxygenRunner.run searches for in the error
message of a failed doxygen invocation. -/
def missingLibsMarker : List Char :=
  "error while loading shared libraries:".toList

/-- Substring containment, modelling the JavaScript String.prototype.includes
test. -/
def hasSubstr (pat : List Char) : List Char → Bool
  | [] => pat.isEmpty
  | l@(_ :: rest) => pat.isPrefixOf l || hasSubstr pat rest

/-- Models the regular expression built from the marker followed by a space
and a greedy one-or-more-any-chars capture group, searched anywhere in the
message: the scan finds the leftmost position where the marker, a space and
at least one non-newline character occur, and the capture is the maximal
run of non-newline characters from there.  Returns none exactly when the
JavaScript match call returns null. -/
def findLibCapture : List Char → Option (List Char)
  | [] => none
  | l@(_ :: rest) =>
    if (missingLibsMarker ++ [' ']).isPrefixOf l then
      let cap := (l.drop (missingLibsMarker.length + 1)).takeWhile (fun c => !(c == '\n'))
      if cap.isEmpty then findLibCapture rest else some cap
    else findLibCapture rest

/-- The JavaScript match result for the missing-libraries regex: null, or the
array holding the full match and the first capture group. -/
def jsMatchMissingLibs (message : List Char) : Option (List (List Char)) :=
  (findLibCapture message).map
    (fun cap => [missingLibsMarker ++ ' ' :: cap, cap])

/-- How the catch block of DoxygenRunner.run disposes of a doxygen failure:
a reported fatal missing-libraries exit, an uncaught TypeError raised by
reading the length property of a null match result, or the recoverable path
that filters the stderr into validation messages. -/
inductive ErrorDisposal where
  | fatalMissingLibs (reported : String)
  | thrownTypeError
  | recoverable (messages : List (List Char))
deriving DecidableEq

namespace DoxygenRunner

/-- Models DoxygenRunner.extractValidationMessages: the stderr text is
normalized (continuation lines melded), split into lines, and filtered down
to the lines matching the warning pattern.  The second component models the
console.warn output of the debug branch: the non-empty lines that were not
kept.  The method returns only the first component. -/
def extractValidationMessages (stderr : List Char) (debug : Bool) :
    List (List Char) × List (List Char) :=
  let errorMessages := splitLines (meldContinuations stderr)
  let filteredMessages := errorMessages.filter isWarningLine
  let remainingMessages :=
    if debug then
      errorMessages.filter (fun m => !(filteredMessages.contains m) && !(m.isEmpty))
    else []
  (filteredMessages, remainingMessages)

/-- The doxyFileOptions object literal of DoxygenRunner.prepare, field by
field. -/
def doxyFileOptions (o : RunOptions) : DoxyConfig where
  INPUT := o.sourceFolder
  RECURSIVE := "YES"
  GENERATE_HTML := "NO"
  GENERATE_LATEX := "NO"
  GENERATE_XML := if o.outputXML then "YES" else "NO"
  XML_OUTPUT := o.xmlFolder
  CASE_SENSE_NAMES := "NO"
  FILE_PATTERNS := String.intercalate " " o.fileExtensions
  EXCLUDE_PATTERNS := match o.exclude with | some s => s | none => ""
  EXTRACT_PRIVATE := if o.accessLevel = "private" then "YES" else "NO"
  EXTRACT_STATIC := "NO"
  QUIET := if o.debug then "NO" else "YES"
  WARN_NO_PARAMDOC := "YES"
  WARN_AS_ERROR := "FAIL_ON_WARNINGS"
  ENABLE_PREPROCESSING := "NO"

/-- The filesystem steps DoxygenRunner.prepare performs after writing the
config file: exactly when the generated GENERATE_XML directive is the
string YES, the XML folder is cleaned and then (re)created. -/
def prepareEvents (o : RunOptions) : List Event :=
  Event.configWrite ::
    (if (doxyFileOptions o).GENERATE_XML = "YES" then
      [Event.xmlDirClean, Event.xmlDirCreate]
    else [])

/-- Models DoxygenRunner.prepare: it synthesizes the directive set, writes it
to the config file, and, exactly when the generated GENERATE_XML directive
is YES, cleans and recreates the XML folder.  Returns the written config,
the resulting state of the XML folder, and the performed side-effect
events. -/
def prepare (o : RunOptions) (xmlState : Option (List FsEntry)) :
    DoxyConfig × Option (List FsEntry) × List Event :=
  let cfg := doxyFileOptions o
  if cfg.GENERATE_XML = "YES" then
    (cfg, createDirectoryIfMissing (cleanDirectory xmlState), prepareEvents o)
  else
    (cfg, xmlState, prepareEvents o)

/-- Models DoxygenRunner.checkInstallation: when the requested version is
installed nothing happens; otherwise a download is attempted, and a failed
download exits the process.  Returns the performed events and whether the
run survives the check. -/
def checkInstallation (env : Environment) : List Event × Bool :=
  if env.doxygenInstalled then ([Event.installCheck], true)
  else if env.downloadOk then ([Event.installCheck, Event.downloadAttempt], true)
  else ([Event.installCheck, Event.downloadAttempt], false)

/-- Models the catch block of DoxygenRunner.run.  When the error message
contains the missing-libraries marker, the code matches the message against
the marker-plus-capture regex and reads the length property of the result:
a successful match (always of length two) reports the captured library name
and exits, while a null match makes that property read throw a TypeError.
Any other failure goes through extractValidationMessages. -/
def disposeFailure (failure : DoxygenFailure) (debug : Bool) : ErrorDisposal :=
  if hasSubstr missingLibsMarker failure.message then
    match jsMatchMissingLibs failure.message with
    | some arr =>
      ErrorDisposal.fatalMissingLibs
        (String.mk (if arr.length > 1 then arr.getD 1 [] else "unknown".toList))
    | none => ErrorDisposal.thrownTypeError
  else
    ErrorDisposal.recoverable (extractValidationMessages failure.stderr debug).1

/-- The result of DoxygenRunner.checkXMLOutput: a process.exit on an empty
listing, or a normal continuation carrying the debug log lines. -/
inductive XmlCheck where
  | exitEmpty
  | ok (logs : List String)
deriving DecidableEq

/-- Models DoxygenRunner.checkXMLOutput: the XML folder listing is taken; an
empty listing exits the process with status 1, otherwise in debug mode the
count and every file name are logged and the run continues. -/
def checkXMLOutput (xmlFiles : List String) (debug : Bool) : XmlCheck :=
  if xmlFiles.length = 0 then XmlCheck.exitEmpty
  else if debug then XmlCheck.ok (toString xmlFiles.length :: xmlFiles)
  else XmlCheck.ok []

/-- The tail of DoxygenRunner.run after the doxygen invocation: when XML
output was requested the folder listing is checked, and the validation
messages are returned. -/
def afterExec (o : RunOptions) (env : Environment) (pre : List Event)
    (messages : List (List Char)) : List Event × RunOutcome :=
  if o.outputXML then
    match checkXMLOutput env.xmlEntries o.debug with
    | XmlCheck.exitEmpty => (pre ++ [Event.xmlDirList], RunOutcome.exited 1)
    | XmlCheck.ok _ => (pre ++ [Event.xmlDirList], RunOutcome.finished messages)
  else (pre, RunOutcome.finished messages)

/-- The events performed from the start of the run up to and including the
doxygen invocation, when the installation check survives. -/
def execTrace (o : RunOptions) (env : Environment) : List Event :=
  (checkInstallation env).1 ++ prepareEvents o ++ [Event.doxygenExec]

/-- Models DoxygenRunner.run as a trace of side-effect events plus an
outcome: installation check, then prepare, then the doxygen invocation with
its catch block, then the optional XML output check, then the return of the
validation messages. -/
def run (o : RunOptions) (env : Environment) : List Event × RunOutcome :=
  if (checkInstallation env).2 then
    match env.doxygenFailure with
    | none => afterExec o env (execTrace o env) []
    | some failure =>
      match disposeFailure failure o.debug with
      | ErrorDisposal.fatalMissingLibs _ => (execTrace o env, RunOutcome.exited 1)
      | ErrorDisposal.thrownTypeError => (execTrace o env, RunOutcome.crashed)
      | ErrorDisposal.recoverable messages => afterExec o env (execTrace o env) messages
  else ((checkInstallation env).1, RunOutcome.exited 1)

end DoxygenRunner

/-- A concrete options record with XML output enabled, used to instantiate
the general theorems. -/
def sampleOptions : RunOptions where
  sourceFolder := "src"
  doxygenVersion := "1.9.6"
  outputXML := true
  xmlFolder := "build/xml"
  fileExtensions := [".h"]
  exclude := none
  accessLevel := "private"
  debug := false
  doxygenConfigFile := "doxygen.config"

/-- A concrete options record with XML output disabled. -/
def sampleOptionsNoXml : RunOptions where
  sourceFolder := "src"
  doxygenVersion := "1.9.6"
  outputXML := false
  xmlFolder := "build/xml"
  fileExtensions := [".h", ".cpp"]
  exclude := some "*/test/*"
  accessLevel := "public"
  debug := true
  doxygenConfigFile := "doxygen.config"

/-- An environment in which doxygen is absent and the download fails. -/
def envDownloadFails : Environment where
  doxygenInstalled := false
  downloadOk := false
  doxygenFailure := none
  xmlEntries := []

/-- An environment with doxygen installed, a clean doxygen execution, and a
non-empty XML folder afterwards. -/
def envClean : Environment where
  doxygenInstalled := true
  downloadOk := true
  doxygenFailure := none
  xmlEntries := ["index.xml"]

/-- The lines obtained from the stderr text after melding continuation lines,
i.e. the normalized lines that extractValidationMessages filters. -/
def normalizedLines (stderr : List Char) : List (List Char) :=
  splitLines (meldContinuations stderr)

theorem meld_nl2 (rest : List Char) :
    meldContinuations ('\n' :: ' ' :: ' ' :: rest) = ' ' :: meldContinuations rest := rfl

theorem meld_step (c1 c2 c3 : Char) (rest : List Char)
    (hc : (c1 == '\n' && c2 == ' ' && c3 == ' ') = false) :
    meldContinuations (c1 :: c2 :: c3 :: rest) =
      c1 :: meldContinuations (c2 :: c3 :: rest) := by
  rw [meldContinuations.eq_1, hc]
  simp

theorem cleanDirEntries_eq_nil (entries : List FsEntry) :
    cleanDirEntries entries = [] := by
  induction entries with
  | nil => rfl
  | cons e rest ih => cases e <;> simpa [cleanDirEntries] using ih

theorem afterExec_trace (o : RunOptions) (env : Environment) (pre : List Event)
    (messages : List (List Char)) :
    ∃ tail, (DoxygenRunner.afterExec o env pre messages).1 = pre ++ tail := by
  unfold DoxygenRunner.afterExec
  split
  · split
    · exact ⟨[Event.xmlDirList], rfl⟩
    · exact ⟨[Event.xmlDirList], rfl⟩
  · exact ⟨[], (List.append_nil pre).symm⟩

theorem execTrace_split (o : RunOptions) (env : Environment) :
    DoxygenRunner.execTrace o env =
      (DoxygenRunner.checkInstallation env).1 ++
        (DoxygenRunner.prepareEvents o ++ [Event.doxygenExec]) := by
  simp [DoxygenRunner.execTrace]

theorem run_trace_split (o : RunOptions) (env : Environment) :
    ∃ rest, (DoxygenRunner.run o env).1 =
      (DoxygenRunner.checkInstallation env).1 ++ rest := by
  unfold DoxygenRunner.run
  split
  · split
    · obtain ⟨tail, ht⟩ := afterExec_trace o env (DoxygenRunner.execTrace o env) []
      refine ⟨DoxygenRunner.prepareEvents o ++ [Event.doxygenExec] ++ tail, ?_⟩
      rw [ht, execTrace_split]
      simp [List.append_assoc]
    · split
      · exact ⟨DoxygenRunner.prepareEvents o ++ [Event.doxygenExec], execTrace_split o env⟩
      · exact ⟨DoxygenRunner.prepareEvents o ++ [Event.doxygenExec], execTrace_split o env⟩
      · obtain ⟨tail, ht⟩ := afterExec_trace o env (DoxygenRunner.execTrace o env) _
        refine ⟨DoxygenRunner.prepareEvents o ++ [Event.doxygenExec] ++ tail, ?_⟩
        rw [ht, execTrace_split]
        simp [List.append_assoc]
  · exact ⟨[], (List.append_nil _).symm⟩

theorem configWrite_notin_install (env : Environment) :
    Event.configWrite ∉ (DoxygenRunner.checkInstallation env).1 := by
  cases hi : env.doxygenInstalled <;> cases hd : env.downloadOk <;>
    simp [DoxygenRunner.checkInstallation, hi, hd]

/-- Claim C1: the spec and the claim say that when the failure message
contains the missing-shared-library marker but nothing capturable follows
it, the controller reports the literal string unknown and exits.  The code
instead crashes: the match call returns null there and reading its length
property throws a TypeError, so the unknown arm of the ternary is
unreachable and no missing-libraries report is produced.  The first
conjunct evaluates the catch block at exactly such a message; the second
shows the run crashing rather than exiting through the reporting path; the
third shows the reporting path working when a capture exists. -/
theorem claim_C1_missing_libs_null_match :
    DoxygenRunner.disposeFailure ⟨missingLibsMarker, []⟩ false =
      ErrorDisposal.thrownTypeError ∧
    (DoxygenRunner.run sampleOptions
      { doxygenInstalled := true, downloadOk := true,
        doxygenFailure := some ⟨missingLibsMarker, []⟩,
        xmlEntries := ["index.xml"] }).2 = RunOutcome.crashed ∧
    DoxygenRunner.disposeFailure
      ⟨("doxygen: error while loading shared libraries: libclang.so: cannot open shared object file").toList, []⟩
      false =
      ErrorDisposal.fatalMissingLibs "libclang.so: cannot open shared object file" := by
  decide

/-- Claim C2 (counterexample): the claim states that a newline followed by
any number of leading spaces other than two is left untouched by the
normalization.  A newline followed by three spaces refutes this: the code
replaces the newline and the first two spaces all the same. -/
theorem claim_C2_counterexample :
    meldContinuations (("\n   x").toList) ≠ ("\n   x").toList := by
  decide

/-- Claim C2 (amended): the normalization replaces every left-to-right,
non-overlapping occurrence of the three-character substring
newline-space-space by a single space, even when further spaces follow (the
extra spaces then remain), and a text containing no such substring — in
particular a newline followed by fewer than two spaces — is left
untouched. -/
theorem claim_C2_meld_replacement (pre suf : List Char)
    (h : containsNl2 pre = false) :
    meldContinuations (pre ++ '\n' :: ' ' :: ' ' :: suf) =
      pre ++ ' ' :: meldContinuations suf ∧
    meldContinuations pre = pre := by
  induction pre with
  | nil => exact ⟨meld_nl2 suf, rfl⟩
  | cons c1 pre1 ih =>
    rcases pre1 with _ | ⟨c2, _ | ⟨c3, pre3⟩⟩
    · have hc : (c1 == '\n' && '\n' == ' ' && ' ' == ' ') = false := by
        cases c1 == '\n' <;> rfl
      constructor
      · show meldContinuations (c1 :: '\n' :: ' ' :: ' ' :: suf) =
          c1 :: ' ' :: meldContinuations suf
        rw [meld_step c1 '\n' ' ' (' ' :: suf) hc, meld_nl2]
      · rfl
    · have hc1 : (c1 == '\n' && c2 == ' ' && '\n' == ' ') = false := by
        cases c1 == '\n' <;> cases c2 == ' ' <;> rfl
      have hc2 : (c2 == '\n' && '\n' == ' ' && ' ' == ' ') = false := by
        cases c2 == '\n' <;> rfl
      constructor
      · show meldContinuations (c1 :: c2 :: '\n' :: ' ' :: ' ' :: suf) =
          c1 :: c2 :: ' ' :: meldContinuations suf
        rw [meld_step c1 c2 '\n' (' ' :: ' ' :: suf) hc1,
          meld_step c2 '\n' ' ' (' ' :: suf) hc2, meld_nl2]
      · rfl
    · have hsplit : (c1 == '\n' && c2 == ' ' && c3 == ' ') = false ∧
          containsNl2 (c2 :: c3 :: pre3) = false := by
        simpa only [containsNl2, Bool.or_eq_false_iff] using h
      have ih1 := ih hsplit.2
      constructor
      · have hstep := meld_step c1 c2 c3 (pre3 ++ '\n' :: ' ' :: ' ' :: suf) hsplit.1
        have hih := ih1.1
        simp only [List.cons_append] at hih ⊢
        rw [hstep, hih]
      · rw [meld_step c1 c2 c3 pre3 hsplit.1, ih1.2]

/-- Witness for the amended claim C2 at a concrete continuation line. -/
theorem claim_C2_meld_replacement_witness :
    meldContinuations (("abc").toList ++ '\n' :: ' ' :: ' ' :: ("def").toList) =
      ("abc").toList ++ ' ' :: meldContinuations (("def").toList) ∧
    meldContinuations (("abc").toList) = ("abc").toList :=
  claim_C2_meld_replacement (("abc").toList) (("def").toList) (by decide)

/-- Claim C3: filtering the given raw error text yields exactly the two
expected warning messages, in order, with the noise line excluded. -/
theorem claim_C3_concrete_filtering :
    (DoxygenRunner.extractValidationMessages
      ("a.h:10: warning: Parameter 'x' not documented\n  (see declaration)\nb.h:20: warning: Undocumented return value\nRandom noise line").toList
      false).1 =
    [("a.h:10: warning: Parameter 'x' not documented (see declaration)").toList,
     ("b.h:20: warning: Undocumented return value").toList] := by
  decide

/-- Claim C4: the returned messages are exactly the warning-matching
normalized lines: a subsequence of the normalized lines (order preserved),
every returned line matches the warning pattern, and each line occurs in
the result exactly as often as in the normalized text when it matches the
pattern, and never otherwise (no deduplication, nothing added). -/
theorem claim_C4_filter_subsequence (stderr : List Char) (debug : Bool) :
    List.Sublist ((DoxygenRunner.extractValidationMessages stderr debug).1)
      (normalizedLines stderr) ∧
    (∀ m ∈ (DoxygenRunner.extractValidationMessages stderr debug).1,
      isWarningLine m = true) ∧
    (∀ line, List.count line ((DoxygenRunner.extractValidationMessages stderr debug).1) =
      if isWarningLine line then List.count line (normalizedLines stderr) else 0) := by
  have hdef : (DoxygenRunner.extractValidationMessages stderr debug).1 =
      (normalizedLines stderr).filter isWarningLine := rfl
  rw [hdef]
  refine ⟨List.filter_sublist _, ?_, ?_⟩
  · intro m hm
    exact (List.mem_filter.mp hm).2
  · intro line
    by_cases hl : isWarningLine line = true
    · rw [if_pos hl]
      exact List.count_filter hl
    · rw [if_neg hl]
      rw [List.count_eq_zero]
      intro hmem
      exact hl (List.mem_filter.mp hmem).2

/-- Witness for claim C4 at a concrete stderr text. -/
theorem claim_C4_filter_subsequence_witness :
    isWarningLine (("x.h:1: warning: a").toList) = true :=
  (claim_C4_filter_subsequence (("x.h:1: warning: a").toList) false).2.1
    (("x.h:1: warning: a").toList) (by decide)

/-- Claim C5: the list of diagnostic messages returned by
extractValidationMessages does not depend on the debug flag; the debug
branch only produces additional log output. -/
theorem claim_C5_debug_noninterference (stderr : List Char) (d1 d2 : Bool) :
    (DoxygenRunner.extractValidationMessages stderr d1).1 =
      (DoxygenRunner.extractValidationMessages stderr d2).1 := rfl

/-- Claim C6: on a run with XML output requested that reaches the output
check, the XML folder is listed; an empty listing exits the process with
status 1 and a non-empty listing lets the run finish; and for any listing
and any debug flag the check exits exactly on the empty listing, so the
verbose reporting never affects control flow. -/
theorem claim_C6_xml_output_check (o : RunOptions) (env : Environment)
    (hinst : env.doxygenInstalled = true)
    (hfail : env.doxygenFailure = none)
    (hxml : o.outputXML = true) :
    Event.xmlDirList ∈ (DoxygenRunner.run o env).1 ∧
    (env.xmlEntries = [] →
      (DoxygenRunner.run o env).2 = RunOutcome.exited 1) ∧
    (env.xmlEntries ≠ [] →
      (DoxygenRunner.run o env).2 = RunOutcome.finished []) ∧
    (∀ files d, DoxygenRunner.checkXMLOutput files d =
      DoxygenRunner.XmlCheck.exitEmpty ↔ files = []) := by
  have hrun : DoxygenRunner.run o env =
      DoxygenRunner.afterExec o env (DoxygenRunner.execTrace o env) [] := by
    simp [DoxygenRunner.run, DoxygenRunner.checkInstallation, hinst, hfail]
  refine ⟨?_, ?_, ?_, ?_⟩
  · rw [hrun]
    unfold DoxygenRunner.afterExec
    rw [if_pos hxml]
    cases DoxygenRunner.checkXMLOutput env.xmlEntries o.debug <;> simp
  · intro hempty
    rw [hrun]
    unfold DoxygenRunner.afterExec
    rw [if_pos hxml]
    simp [DoxygenRunner.checkXMLOutput, hempty]
  · intro hne
    rw [hrun]
    unfold DoxygenRunner.afterExec
    rw [if_pos hxml]
    have hlen : ¬ env.xmlEntries.length = 0 := by
      simpa [List.length_eq_zero] using hne
    cases hd : o.debug <;> simp [DoxygenRunner.checkXMLOutput, hlen, hd]
  · intro files d
    cases files <;> cases d <;> simp [DoxygenRunner.checkXMLOutput]

/-- Witness for claim C6 at a concrete run with one XML file present. -/
theorem claim_C6_xml_output_check_witness :
    Event.xmlDirList ∈ (DoxygenRunner.run sampleOptions envClean).1 :=
  (claim_C6_xml_output_check sampleOptions envClean rfl rfl rfl).1

/-- Claim C7: with XML output requested, prepare destructively clears the
XML folder and recreates it, so right after prepare and before the doxygen
execution the folder exists and is empty, whatever its prior state was. -/
theorem claim_C7_clean_recreate (o : RunOptions)
    (xmlState : Option (List FsEntry)) (h : o.outputXML = true) :
    (DoxygenRunner.prepare o xmlState).2.1 = some [] := by
  have hyes : (DoxygenRunner.doxyFileOptions o).GENERATE_XML = "YES" := by
    simp [DoxygenRunner.doxyFileOptions, h]
  cases xmlState with
  | none =>
    simp [DoxygenRunner.prepare, hyes, cleanDirectory, createDirectoryIfMissing]
  | some entries =>
    simp [DoxygenRunner.prepare, hyes, cleanDirectory, createDirectoryIfMissing,
      cleanDirEntries_eq_nil]

/-- Witness for claim C7: a folder holding stale artifacts of a prior run
comes out empty. -/
theorem claim_C7_clean_recreate_witness :
    (DoxygenRunner.prepare sampleOptions
      (some [FsEntry.file "stale.xml", FsEntry.dir "sub" [FsEntry.file "deep.xml"]])).2.1 =
      some [] :=
  claim_C7_clean_recreate sampleOptions
    (some [FsEntry.file "stale.xml", FsEntry.dir "sub" [FsEntry.file "deep.xml"]]) rfl

/-- Claim C8: when the requested doxygen version is absent and the download
fails, the run exits with status 1, its whole trace is the installation
check and download attempt, and no config write occurs; moreover in every
environment the trace starts with the installation-check events, which
never include a config write, so the installation check completes or exits
strictly before config synthesis begins. -/
theorem claim_C8_install_before_config (o : RunOptions) (env : Environment)
    (h1 : env.doxygenInstalled = false) (h2 : env.downloadOk = false) :
    (DoxygenRunner.run o env).2 = RunOutcome.exited 1 ∧
    (DoxygenRunner.run o env).1 = [Event.installCheck, Event.downloadAttempt] ∧
    Event.configWrite ∉ (DoxygenRunner.run o env).1 ∧
    (∀ env2, ∃ rest, (DoxygenRunner.run o env2).1 =
      (DoxygenRunner.checkInstallation env2).1 ++ rest ∧
      Event.configWrite ∉ (DoxygenRunner.checkInstallation env2).1) := by
  have htr : DoxygenRunner.run o env =
      ([Event.installCheck, Event.downloadAttempt], RunOutcome.exited 1) := by
    simp [DoxygenRunner.run, DoxygenRunner.checkInstallation, h1, h2]
  refine ⟨by rw [htr], by rw [htr], by rw [htr]; decide, ?_⟩
  intro env2
  obtain ⟨rest, hrest⟩ := run_trace_split o env2
  exact ⟨rest, hrest, configWrite_notin_install env2⟩

/-- Witness for claim C8 in the concrete failing-download environment. -/
theorem claim_C8_install_before_config_witness :
    (DoxygenRunner.run sampleOptions envDownloadFails).2 = RunOutcome.exited 1 :=
  (claim_C8_install_before_config sampleOptions envDownloadFails rfl rfl).1

/-- Claim C9: the generated directive set enables private-member extraction
exactly when the access level is the string private, and always disables
static-member extraction. -/
theorem claim_C9_extract_directives (o : RunOptions) :
    ((DoxygenRunner.doxyFileOptions o).EXTRACT_PRIVATE = "YES" ↔ o.accessLevel = "private") ∧
    (DoxygenRunner.doxyFileOptions o).EXTRACT_STATIC = "NO" := by
  refine ⟨?_, rfl⟩
  by_cases h : o.accessLevel = "private" <;> simp [DoxygenRunner.doxyFileOptions, h]

/-- Witness for claim C9 at the concrete private-access options. -/
theorem claim_C9_extract_directives_witness :
    (DoxygenRunner.doxyFileOptions sampleOptions).EXTRACT_PRIVATE = "YES" :=
  (claim_C9_extract_directives sampleOptions).1.mpr rfl

/-- Claim C10: with XML output disabled, the generated GENERATE_XML
directive is the string NO, so prepare leaves the XML folder exactly as it
was, and its only side-effect event is the config-file write. -/
theorem claim_C10_prepare_frame (o : RunOptions)
    (xmlState : Option (List FsEntry)) (h : o.outputXML = false) :
    (DoxygenRunner.doxyFileOptions o).GENERATE_XML = "NO" ∧
    (DoxygenRunner.prepare o xmlState).2.1 = xmlState ∧
    DoxygenRunner.prepareEvents o = [Event.configWrite] := by
  have hno : (DoxygenRunner.doxyFileOptions o).GENERATE_XML = "NO" := by
    simp [DoxygenRunner.doxyFileOptions, h]
  refine ⟨hno, ?_, ?_⟩
  · simp [DoxygenRunner.prepare, hno]
  · simp [DoxygenRunner.prepareEvents, hno]

/-- Witness for claim C10: a pre-existing stale entry survives a prepare
that does not request XML output. -/
theorem claim_C10_prepare_frame_witness :
    (DoxygenRunner.prepare sampleOptionsNoXml (some [FsEntry.file "old.xml"])).2.1 =
      some [FsEntry.file "old.xml"] :=
  (claim_C10_prepare_frame sampleOptionsNoXml (some [FsEntry.file "old.xml"]) rfl).2.1
